import Mathlib

/-!
# Shallow embedding of the `payments_engine` ledger core

This file embeds the Rust sources of the repository's ledger engine:

* `src/transaction_manager/balance.rs` — the per-client `Balance` with its
  five mutation operations;
* `src/transaction_manager/transaction.rs` — transaction kinds, statuses,
  the per-transaction record `TransactionState` and its state machine;
* `src/transaction_manager/errors.rs` — the `TransactionError` taxonomy;
* `src/transaction_manager.rs` — the `TransactionManager` with its maps and
  the `accept` entry point.

Modelling conventions:

* Rust `i64` amounts are modelled as unbounded `Int`.  The claims under study
  are algebraic (balance identities, error ordering, concrete small-number
  scenarios); none concerns two's-complement overflow, and debug-mode Rust
  panics rather than wraps on overflow.
* `ClientId` (`u16`) and `TransactionId` (`u32`) are modelled as `Nat`; the
  code only ever compares them for equality.
* The `balances: HashMap<ClientId, Balance>` is modelled as a total map
  `ClientId → Balance` defaulting to `Balance.new`, because the only access
  path, `get_balance_mut`, is `entry(..).or_insert(Balance::new())`: a lookup
  that lazily inserts exactly the default.  The `transactions` map keeps an
  `Option` codomain since record existence drives the duplicate and
  not-found checks.
* Rust's `&mut self` methods returning `Result<(), TransactionError>` become
  state-passing functions returning `Except TransactionError Unit ×
  TransactionManager`; every early `return Err(e)` returns the input state,
  exactly as the Rust code leaves `self` unmodified on those paths.
* `insert_transaction` panics in Rust on a duplicate id; every caller checks
  the id for absence first, so the panic is unreachable and the function is
  modelled as a plain map update.
-/

deriving instance DecidableEq for Except

abbrev ClientId := Nat

abbrev TransactionId := Nat

inductive TransactionType where
  | Deposit
  | Withdrawal
deriving DecidableEq, Repr

inductive TransactionStatus where
  | Valid
  | Disputed
  | Resolved
  | Chargeback
deriving DecidableEq, Repr

inductive TransactionError where
  | InsufficientFunds
  | DuplicateTransaction
  | AmountIsNegative
  | InvalidStateTransition (fromStatus toStatus : TransactionStatus)
  | DisputedTransactionNotFound
  | DisputeClientMismatch
  | DisputeWithdrawalNotSupported
  | ResolveClientMismatch
  | ChargebackClientMismatch
deriving DecidableEq, Repr

/-- `Balance` from `balance.rs`: the four per-client accounting fields. -/
structure Balance where
  available_base_units : Int
  held_base_units : Int
  total_base_units : Int
  locked : Bool
deriving DecidableEq, Repr

def Balance.new : Balance :=
  { available_base_units := 0, held_base_units := 0, total_base_units := 0, locked := false }

/-- `Balance::deposit`: `available += amount; total += amount`. -/
def Balance.deposit (self : Balance) (amount : Int) : Balance :=
  { self with
    available_base_units := self.available_base_units + amount
    total_base_units := self.total_base_units + amount }

/-- `Balance::withdrawal`: fails with `InsufficientFunds` when
`available < amount`; otherwise `available -= amount; total -= amount`. -/
def Balance.withdrawal (self : Balance) (amount : Int) : Except TransactionError Balance :=
  if self.available_base_units < amount then
    .error .InsufficientFunds
  else
    .ok { self with
          available_base_units := self.available_base_units - amount
          total_base_units := self.total_base_units - amount }

/-- `Balance::hold`: `available -= amount; held += amount`; `total` unchanged. -/
def Balance.hold (self : Balance) (amount : Int) : Balance :=
  { self with
    available_base_units := self.available_base_units - amount
    held_base_units := self.held_base_units + amount }

/-- `Balance::release`: `available += amount; held -= amount`; `total` unchanged. -/
def Balance.release (self : Balance) (amount : Int) : Balance :=
  { self with
    available_base_units := self.available_base_units + amount
    held_base_units := self.held_base_units - amount }

/-- `Balance::chargeback`: `total -= amount; held -= amount; locked = true`;
`available` untouched. -/
def Balance.chargeback (self : Balance) (amount : Int) : Balance :=
  { self with
    total_base_units := self.total_base_units - amount
    held_base_units := self.held_base_units - amount
    locked := true }

/-- The `Transaction` enum from `transaction.rs`: the five inputs `accept`
takes.  Dispute-family variants carry no amount field, as in the source. -/
inductive Transaction where
  | Deposit (id : TransactionId) (client_id : ClientId) (amount_base_units : Int)
  | Withdrawal (id : TransactionId) (client_id : ClientId) (amount_base_units : Int)
  | Dispute (id : TransactionId) (client_id : ClientId)
  | Resolve (id : TransactionId) (client_id : ClientId)
  | Chargeback (id : TransactionId) (client_id : ClientId)
deriving DecidableEq, Repr

/-- `TransactionState` from `transaction.rs`: the stored per-transaction record. -/
structure TransactionState where
  transaction_type : TransactionType
  id : TransactionId
  client_id : ClientId
  amount_base_units : Int
  status : TransactionStatus
deriving DecidableEq, Repr

/-- `TransactionState::new`: rejects a strictly negative amount with
`AmountIsNegative`, otherwise builds a record in `Valid` status. -/
def TransactionState.new (transaction_type : TransactionType) (id : TransactionId)
    (client_id : ClientId) (amount : Int) : Except TransactionError TransactionState :=
  if amount < 0 then
    .error .AmountIsNegative
  else
    .ok { transaction_type := transaction_type, id := id, client_id := client_id,
          amount_base_units := amount, status := .Valid }

/-- `TransactionState::amount` accessor. -/
def TransactionState.amount (self : TransactionState) : Int :=
  self.amount_base_units

/-- `TransactionState::dispute`: rejects withdrawal-kind records, then any
status other than `Valid`, then transitions to `Disputed`. -/
def TransactionState.dispute (self : TransactionState) :
    Except TransactionError TransactionState :=
  if self.transaction_type = .Withdrawal then
    .error .DisputeWithdrawalNotSupported
  else if self.status ≠ .Valid then
    .error (.InvalidStateTransition self.status .Disputed)
  else
    .ok { self with status := .Disputed }

/-- `TransactionState::resolve`: rejects any status other than `Disputed`,
then transitions to `Resolved`. -/
def TransactionState.resolve (self : TransactionState) :
    Except TransactionError TransactionState :=
  if self.status ≠ .Disputed then
    .error (.InvalidStateTransition self.status .Resolved)
  else
    .ok { self with status := .Resolved }

/-- `TransactionState::chargeback`: rejects any status other than `Disputed`,
then transitions to `Chargeback`. -/
def TransactionState.chargeback (self : TransactionState) :
    Except TransactionError TransactionState :=
  if self.status ≠ .Disputed then
    .error (.InvalidStateTransition self.status .Chargeback)
  else
    .ok { self with status := .Chargeback }

/-- The `TransactionManager` state: its two maps. -/
structure TransactionManager where
  balances : ClientId → Balance
  transactions : TransactionId → Option TransactionState

/-- `TransactionManager::new`: both maps empty (an absent client reads as
`Balance.new`, matching `get_balance_mut`'s lazy `or_insert`). -/
def TransactionManager.new : TransactionManager :=
  { balances := fun _ => Balance.new, transactions := fun _ => none }

/-- `TransactionManager::get_balance_mut`, read side: the client's balance,
lazily defaulting to `Balance.new`. -/
def TransactionManager.get_balance (self : TransactionManager) (client_id : ClientId) :
    Balance :=
  self.balances client_id

/-- Write-back of a mutation made through `get_balance_mut`. -/
def TransactionManager.set_balance (self : TransactionManager) (client_id : ClientId)
    (b : Balance) : TransactionManager :=
  { self with balances := Function.update self.balances client_id b }

/-- `TransactionManager::insert_transaction`.  The Rust panic on a duplicate
id is unreachable: every caller has already checked the id for absence. -/
def TransactionManager.insert_transaction (self : TransactionManager)
    (t : TransactionState) : TransactionManager :=
  { self with transactions := Function.update self.transactions t.id (some t) }

/-- `TransactionManager::deposit`: duplicate check, record construction
(negative-amount check), `Balance.deposit`, record insertion. -/
def TransactionManager.deposit (self : TransactionManager)
    (transaction_id : TransactionId) (client_id : ClientId) (amount : Int) :
    Except TransactionError Unit × TransactionManager :=
  match self.transactions transaction_id with
  | some _ => (.error .DuplicateTransaction, self)
  | none =>
    match TransactionState.new .Deposit transaction_id client_id amount with
    | .error e => (.error e, self)
    | .ok transaction_state =>
      let balance := self.get_balance client_id
      let self1 := self.set_balance client_id (balance.deposit amount)
      (.ok (), self1.insert_transaction transaction_state)

/-- `TransactionManager::withdrawal`: duplicate check, record construction
(negative-amount check), `Balance.withdrawal` (sufficient-funds check), record
insertion; on `InsufficientFunds` no record is inserted and no field changes. -/
def TransactionManager.withdrawal (self : TransactionManager)
    (transaction_id : TransactionId) (client_id : ClientId) (amount : Int) :
    Except TransactionError Unit × TransactionManager :=
  match self.transactions transaction_id with
  | some _ => (.error .DuplicateTransaction, self)
  | none =>
    match TransactionState.new .Withdrawal transaction_id client_id amount with
    | .error e => (.error e, self)
    | .ok transaction_state =>
      let balance := self.get_balance client_id
      match balance.withdrawal amount with
      | .error e => (.error e, self)
      | .ok b =>
        let self1 := self.set_balance client_id b
        (.ok (), self1.insert_transaction transaction_state)

/-- `TransactionManager::dispute`: lookup, client-mismatch check, record
transition (`TransactionState.dispute`), then `Balance.hold` of the stored
amount. -/
def TransactionManager.dispute (self : TransactionManager)
    (transaction_id : TransactionId) (client_id : ClientId) :
    Except TransactionError Unit × TransactionManager :=
  match self.transactions transaction_id with
  | none => (.error .DisputedTransactionNotFound, self)
  | some disputed_transaction =>
    if client_id ≠ disputed_transaction.client_id then
      (.error .DisputeClientMismatch, self)
    else
      let amount := disputed_transaction.amount
      match disputed_transaction.dispute with
      | .error e => (.error e, self)
      | .ok updated =>
        let self1 := { self with
          transactions := Function.update self.transactions transaction_id (some updated) }
        let balance := self1.get_balance client_id
        (.ok (), self1.set_balance client_id (balance.hold amount))

/-- `TransactionManager::resolve`: lookup, client-mismatch check, record
transition (`TransactionState.resolve`), then `Balance.release` of the stored
amount. -/
def TransactionManager.resolve (self : TransactionManager)
    (transaction_id : TransactionId) (client_id : ClientId) :
    Except TransactionError Unit × TransactionManager :=
  match self.transactions transaction_id with
  | none => (.error .DisputedTransactionNotFound, self)
  | some disputed_transaction =>
    if client_id ≠ disputed_transaction.client_id then
      (.error .ResolveClientMismatch, self)
    else
      let amount := disputed_transaction.amount
      match disputed_transaction.resolve with
      | .error e => (.error e, self)
      | .ok updated =>
        let self1 := { self with
          transactions := Function.update self.transactions transaction_id (some updated) }
        let balance := self1.get_balance client_id
        (.ok (), self1.set_balance client_id (balance.release amount))

/-- `TransactionManager::chargeback`: lookup, client-mismatch check, record
transition (`TransactionState.chargeback`), then `Balance.chargeback` of the
stored amount. -/
def TransactionManager.chargeback (self : TransactionManager)
    (transaction_id : TransactionId) (client_id : ClientId) :
    Except TransactionError Unit × TransactionManager :=
  match self.transactions transaction_id with
  | none => (.error .DisputedTransactionNotFound, self)
  | some disputed_transaction =>
    if client_id ≠ disputed_transaction.client_id then
      (.error .ChargebackClientMismatch, self)
    else
      let amount := disputed_transaction.amount
      match disputed_transaction.chargeback with
      | .error e => (.error e, self)
      | .ok updated =>
        let self1 := { self with
          transactions := Function.update self.transactions transaction_id (some updated) }
        let balance := self1.get_balance client_id
        (.ok (), self1.set_balance client_id (balance.chargeback amount))

/-- `TransactionManager::accept`: the single entry point, dispatching on the
transaction variant. -/
def TransactionManager.accept (self : TransactionManager) (transaction : Transaction) :
    Except TransactionError Unit × TransactionManager :=
  match transaction with
  | .Deposit id client_id amount => self.deposit id client_id amount
  | .Withdrawal id client_id amount => self.withdrawal id client_id amount
  | .Dispute id client_id => self.dispute id client_id
  | .Resolve id client_id => self.resolve id client_id
  | .Chargeback id client_id => self.chargeback id client_id

/-- States reachable from the fresh manager by any sequence of `accept`
calls (failing calls included; they leave the state unchanged). -/
inductive TransactionManager.Reachable : TransactionManager → Prop where
  | init : TransactionManager.Reachable TransactionManager.new
  | step (s : TransactionManager) (t : Transaction) :
      TransactionManager.Reachable s → TransactionManager.Reachable (s.accept t).2

/-- The three-way accounting identity on one balance. -/
def BalanceInv (b : Balance) : Prop :=
  b.total_base_units = b.available_base_units + b.held_base_units

/-- The accounting identity for every client of a manager state. -/
def TransactionManager.Inv (s : TransactionManager) : Prop :=
  ∀ c, BalanceInv (s.balances c)

/-! ## Branch equations for the five operations -/

namespace TransactionManager

theorem deposit_dup {s : TransactionManager} {tid : TransactionId} {ts : TransactionState}
    (c : ClientId) (a : Int) (h : s.transactions tid = some ts) :
    s.deposit tid c a = (.error .DuplicateTransaction, s) := by
  simp only [TransactionManager.deposit, h]

theorem deposit_neg {s : TransactionManager} {tid : TransactionId} {a : Int}
    (c : ClientId) (h : s.transactions tid = none) (ha : a < 0) :
    s.deposit tid c a = (.error .AmountIsNegative, s) := by
  simp only [TransactionManager.deposit, h, TransactionState.new, if_pos ha]

theorem deposit_ok {s : TransactionManager} {tid : TransactionId} {a : Int}
    (c : ClientId) (h : s.transactions tid = none) (ha : ¬ a < 0) :
    s.deposit tid c a = (.ok (),
      { balances := Function.update s.balances c ((s.balances c).deposit a)
        transactions := Function.update s.transactions tid
          (some { transaction_type := .Deposit, id := tid, client_id := c,
                  amount_base_units := a, status := .Valid }) }) := by
  simp only [TransactionManager.deposit, h, TransactionState.new, if_neg ha,
    TransactionManager.get_balance, TransactionManager.set_balance,
    TransactionManager.insert_transaction]

theorem withdrawal_dup {s : TransactionManager} {tid : TransactionId} {ts : TransactionState}
    (c : ClientId) (a : Int) (h : s.transactions tid = some ts) :
    s.withdrawal tid c a = (.error .DuplicateTransaction, s) := by
  simp only [TransactionManager.withdrawal, h]

theorem withdrawal_neg {s : TransactionManager} {tid : TransactionId} {a : Int}
    (c : ClientId) (h : s.transactions tid = none) (ha : a < 0) :
    s.withdrawal tid c a = (.error .AmountIsNegative, s) := by
  simp only [TransactionManager.withdrawal, h, TransactionState.new, if_pos ha]

theorem withdrawal_insufficient {s : TransactionManager} {tid : TransactionId}
    {c : ClientId} {a : Int} (h : s.transactions tid = none) (ha : ¬ a < 0)
    (hf : (s.balances c).available_base_units < a) :
    s.withdrawal tid c a = (.error .InsufficientFunds, s) := by
  simp only [TransactionManager.withdrawal, h, TransactionState.new, if_neg ha,
    TransactionManager.get_balance, Balance.withdrawal, if_pos hf]

theorem withdrawal_ok {s : TransactionManager} {tid : TransactionId} {c : ClientId} {a : Int}
    (h : s.transactions tid = none) (ha : ¬ a < 0)
    (hf : ¬ (s.balances c).available_base_units < a) :
    s.withdrawal tid c a = (.ok (),
      { balances := Function.update s.balances c
          { s.balances c with
            available_base_units := (s.balances c).available_base_units - a
            total_base_units := (s.balances c).total_base_units - a }
        transactions := Function.update s.transactions tid
          (some { transaction_type := .Withdrawal, id := tid, client_id := c,
                  amount_base_units := a, status := .Valid }) }) := by
  simp only [TransactionManager.withdrawal, h, TransactionState.new, if_neg ha,
    TransactionManager.get_balance, Balance.withdrawal, if_neg hf,
    TransactionManager.set_balance, TransactionManager.insert_transaction]

theorem dispute_not_found {s : TransactionManager} {tid : TransactionId}
    (c : ClientId) (h : s.transactions tid = none) :
    s.dispute tid c = (.error .DisputedTransactionNotFound, s) := by
  simp only [TransactionManager.dispute, h]

theorem dispute_mismatch {s : TransactionManager} {tid : TransactionId}
    {c : ClientId} {ts : TransactionState} (h : s.transactions tid = some ts)
    (hc : c ≠ ts.client_id) :
    s.dispute tid c = (.error .DisputeClientMismatch, s) := by
  simp only [TransactionManager.dispute, h, if_pos hc]

theorem dispute_withdrawal_kind {s : TransactionManager} {tid : TransactionId}
    {c : ClientId} {ts : TransactionState} (h : s.transactions tid = some ts)
    (hc : ¬ c ≠ ts.client_id) (hw : ts.transaction_type = .Withdrawal) :
    s.dispute tid c = (.error .DisputeWithdrawalNotSupported, s) := by
  simp only [TransactionManager.dispute, h, if_neg hc, TransactionState.dispute,
    if_pos hw]

theorem dispute_invalid {s : TransactionManager} {tid : TransactionId}
    {c : ClientId} {ts : TransactionState} (h : s.transactions tid = some ts)
    (hc : ¬ c ≠ ts.client_id) (hw : ¬ ts.transaction_type = .Withdrawal)
    (hv : ts.status ≠ .Valid) :
    s.dispute tid c = (.error (.InvalidStateTransition ts.status .Disputed), s) := by
  simp only [TransactionManager.dispute, h, if_neg hc, TransactionState.dispute,
    if_neg hw, if_pos hv]

theorem dispute_ok {s : TransactionManager} {tid : TransactionId}
    {c : ClientId} {ts : TransactionState} (h : s.transactions tid = some ts)
    (hc : ¬ c ≠ ts.client_id) (hw : ¬ ts.transaction_type = .Withdrawal)
    (hv : ¬ ts.status ≠ .Valid) :
    s.dispute tid c = (.ok (),
      { balances := Function.update s.balances c ((s.balances c).hold ts.amount_base_units)
        transactions := Function.update s.transactions tid
          (some { ts with status := .Disputed }) }) := by
  simp only [TransactionManager.dispute, h, if_neg hc, TransactionState.dispute,
    if_neg hw, if_neg hv, TransactionManager.get_balance, TransactionManager.set_balance,
    TransactionState.amount]

theorem resolve_not_found {s : TransactionManager} {tid : TransactionId}
    (c : ClientId) (h : s.transactions tid = none) :
    s.resolve tid c = (.error .DisputedTransactionNotFound, s) := by
  simp only [TransactionManager.resolve, h]

theorem resolve_mismatch {s : TransactionManager} {tid : TransactionId}
    {c : ClientId} {ts : TransactionState} (h : s.transactions tid = some ts)
    (hc : c ≠ ts.client_id) :
    s.resolve tid c = (.error .ResolveClientMismatch, s) := by
  simp only [TransactionManager.resolve, h, if_pos hc]

theorem resolve_invalid {s : TransactionManager} {tid : TransactionId}
    {c : ClientId} {ts : TransactionState} (h : s.transactions tid = some ts)
    (hc : ¬ c ≠ ts.client_id) (hv : ts.status ≠ .Disputed) :
    s.resolve tid c = (.error (.InvalidStateTransition ts.status .Resolved), s) := by
  simp only [TransactionManager.resolve, h, if_neg hc, TransactionState.resolve,
    if_pos hv]

theorem resolve_ok {s : TransactionManager} {tid : TransactionId}
    {c : ClientId} {ts : TransactionState} (h : s.transactions tid = some ts)
    (hc : ¬ c ≠ ts.client_id) (hv : ¬ ts.status ≠ .Disputed) :
    s.resolve tid c = (.ok (),
      { balances := Function.update s.balances c
          ((s.balances c).release ts.amount_base_units)
        transactions := Function.update s.transactions tid
          (some { ts with status := .Resolved }) }) := by
  simp only [TransactionManager.resolve, h, if_neg hc, TransactionState.resolve,
    if_neg hv, TransactionManager.get_balance, TransactionManager.set_balance,
    TransactionState.amount]

theorem chargeback_not_found {s : TransactionManager} {tid : TransactionId}
    (c : ClientId) (h : s.transactions tid = none) :
    s.chargeback tid c = (.error .DisputedTransactionNotFound, s) := by
  simp only [TransactionManager.chargeback, h]

theorem chargeback_mismatch {s : TransactionManager} {tid : TransactionId}
    {c : ClientId} {ts : TransactionState} (h : s.transactions tid = some ts)
    (hc : c ≠ ts.client_id) :
    s.chargeback tid c = (.error .ChargebackClientMismatch, s) := by
  simp only [TransactionManager.chargeback, h, if_pos hc]

theorem chargeback_invalid {s : TransactionManager} {tid : TransactionId}
    {c : ClientId} {ts : TransactionState} (h : s.transactions tid = some ts)
    (hc : ¬ c ≠ ts.client_id) (hv : ts.status ≠ .Disputed) :
    s.chargeback tid c = (.error (.InvalidStateTransition ts.status .Chargeback), s) := by
  simp only [TransactionManager.chargeback, h, if_neg hc, TransactionState.chargeback,
    if_pos hv]

theorem chargeback_ok {s : TransactionManager} {tid : TransactionId}
    {c : ClientId} {ts : TransactionState} (h : s.transactions tid = some ts)
    (hc : ¬ c ≠ ts.client_id) (hv : ¬ ts.status ≠ .Disputed) :
    s.chargeback tid c = (.ok (),
      { balances := Function.update s.balances c
          ((s.balances c).chargeback ts.amount_base_units)
        transactions := Function.update s.transactions tid
          (some { ts with status := .Chargeback }) }) := by
  simp only [TransactionManager.chargeback, h, if_neg hc, TransactionState.chargeback,
    if_neg hv, TransactionManager.get_balance, TransactionManager.set_balance,
    TransactionState.amount]

end TransactionManager

/-! ## The accounting invariant `total = available + held` -/

theorem BalanceInv.new_balance : BalanceInv Balance.new := by
  simp [BalanceInv, Balance.new]

theorem BalanceInv.deposit {b : Balance} (h : BalanceInv b) (a : Int) :
    BalanceInv (b.deposit a) := by
  simp only [BalanceInv, Balance.deposit] at *
  omega

theorem BalanceInv.withdrawal_preserved {b b' : Balance} {a : Int} (h : BalanceInv b)
    (hw : b.withdrawal a = .ok b') : BalanceInv b' := by
  simp only [Balance.withdrawal] at hw
  split at hw
  · exact absurd hw (by simp)
  · cases hw
    simp only [BalanceInv] at *
    omega

theorem BalanceInv.hold {b : Balance} (h : BalanceInv b) (a : Int) :
    BalanceInv (b.hold a) := by
  simp only [BalanceInv, Balance.hold] at *
  omega

theorem BalanceInv.release {b : Balance} (h : BalanceInv b) (a : Int) :
    BalanceInv (b.release a) := by
  simp only [BalanceInv, Balance.release] at *
  omega

theorem BalanceInv.chargeback {b : Balance} (h : BalanceInv b) (a : Int) :
    BalanceInv (b.chargeback a) := by
  simp only [BalanceInv, Balance.chargeback] at *
  omega

theorem TransactionManager.Inv.new_manager : TransactionManager.new.Inv :=
  fun _ => BalanceInv.new_balance

/-- Updating one client's balance with a `BalanceInv`-preserving value keeps
the manager invariant. -/
theorem TransactionManager.Inv.update {s : TransactionManager} (h : s.Inv)
    {c : ClientId} {b : Balance} (hb : BalanceInv b)
    (tx : TransactionId → Option TransactionState) :
    TransactionManager.Inv
      { balances := Function.update s.balances c b, transactions := tx } := by
  intro c'
  by_cases hc : c' = c
  · subst hc
    simpa [TransactionManager.Inv, Function.update_same] using hb
  · simpa [TransactionManager.Inv, Function.update_noteq hc] using h c'

/-- Every `accept` step preserves the accounting identity for every client. -/
theorem TransactionManager.Inv.accept {s : TransactionManager} (h : s.Inv)
    (t : Transaction) : ((s.accept t).2).Inv := by
  cases t with
  | Deposit tid c a =>
    simp only [TransactionManager.accept]
    cases hx : s.transactions tid with
    | some ts => rw [TransactionManager.deposit_dup c a hx]; exact h
    | none =>
      by_cases ha : a < 0
      · rw [TransactionManager.deposit_neg c hx ha]; exact h
      · rw [TransactionManager.deposit_ok c hx ha]
        exact h.update ((h c).deposit a) _
  | Withdrawal tid c a =>
    simp only [TransactionManager.accept]
    cases hx : s.transactions tid with
    | some ts => rw [TransactionManager.withdrawal_dup c a hx]; exact h
    | none =>
      by_cases ha : a < 0
      · rw [TransactionManager.withdrawal_neg c hx ha]; exact h
      · by_cases hf : (s.balances c).available_base_units < a
        · rw [TransactionManager.withdrawal_insufficient hx ha hf]; exact h
        · rw [TransactionManager.withdrawal_ok hx ha hf]
          refine h.update ?_ _
          have := h c
          simp only [BalanceInv] at *
          omega
  | Dispute tid c =>
    simp only [TransactionManager.accept]
    cases hx : s.transactions tid with
    | none => rw [TransactionManager.dispute_not_found c hx]; exact h
    | some ts =>
      by_cases hc : c ≠ ts.client_id
      · rw [TransactionManager.dispute_mismatch hx hc]; exact h
      · by_cases hw : ts.transaction_type = .Withdrawal
        · rw [TransactionManager.dispute_withdrawal_kind hx hc hw]; exact h
        · by_cases hv : ts.status ≠ .Valid
          · rw [TransactionManager.dispute_invalid hx hc hw hv]; exact h
          · rw [TransactionManager.dispute_ok hx hc hw hv]
            exact h.update ((h c).hold _) _
  | Resolve tid c =>
    simp only [TransactionManager.accept]
    cases hx : s.transactions tid with
    | none => rw [TransactionManager.resolve_not_found c hx]; exact h
    | some ts =>
      by_cases hc : c ≠ ts.client_id
      · rw [TransactionManager.resolve_mismatch hx hc]; exact h
      · by_cases hv : ts.status ≠ .Disputed
        · rw [TransactionManager.resolve_invalid hx hc hv]; exact h
        · rw [TransactionManager.resolve_ok hx hc hv]
          exact h.update ((h c).release _) _
  | Chargeback tid c =>
    simp only [TransactionManager.accept]
    cases hx : s.transactions tid with
    | none => rw [TransactionManager.chargeback_not_found c hx]; exact h
    | some ts =>
      by_cases hc : c ≠ ts.client_id
      · rw [TransactionManager.chargeback_mismatch hx hc]; exact h
      · by_cases hv : ts.status ≠ .Disputed
        · rw [TransactionManager.chargeback_invalid hx hc hv]; exact h
        · rw [TransactionManager.chargeback_ok hx hc hv]
          exact h.update ((h c).chargeback _) _

/-- Every reachable manager state satisfies the accounting identity. -/
theorem TransactionManager.Reachable.inv {s : TransactionManager}
    (h : s.Reachable) : s.Inv := by
  induction h with
  | init => exact TransactionManager.Inv.new_manager
  | step s t _ ih => exact ih.accept t

/-! ## Claim C1 -/

/-- C1, counterexample to the claim as stated: the claim asserts that for
some reachable state immediately after a successful chargeback,
`available ≠ total - held`.  No reachable state whatsoever has
`available ≠ total - held`: the divergence the claim asserts to exist never
occurs, because `Balance.chargeback` subtracts the amount from `held` and
`total` together, preserving the identity. -/
theorem C1_no_divergent_reachable_state :
    ¬ ∃ s : TransactionManager, s.Reachable ∧ ∃ c : ClientId,
      (s.balances c).available_base_units ≠
        (s.balances c).total_base_units - (s.balances c).held_base_units := by
  rintro ⟨s, hs, c, hne⟩
  have h := hs.inv c
  simp only [BalanceInv] at h
  omega

/-- C1 (amended): for every reachable state of the `TransactionManager` and
every client, `total = available + held` holds with no exception — also
immediately after a successful chargeback. -/
theorem C1_total_eq_available_plus_held (s : TransactionManager)
    (h : s.Reachable) (c : ClientId) :
    (s.balances c).total_base_units =
      (s.balances c).available_base_units + (s.balances c).held_base_units :=
  h.inv c

/-- C1 witness: the amended invariant instantiated at the concrete reachable
state obtained by one deposit. -/
theorem C1_total_eq_available_plus_held_witness :
    (((TransactionManager.new.accept (.Deposit 1 1 100)).2.balances 1).total_base_units =
      ((TransactionManager.new.accept (.Deposit 1 1 100)).2.balances 1).available_base_units +
        ((TransactionManager.new.accept (.Deposit 1 1 100)).2.balances 1).held_base_units) :=
  C1_total_eq_available_plus_held _
    (TransactionManager.Reachable.step _ _ TransactionManager.Reachable.init) 1

/-! ## Claim C2 -/

/-- C2: the identity `total = available + held` holds unconditionally —
every `accept` (hence each of the five operations) preserves it, every
reachable state satisfies it, and a chargeback reduces `held` and `total`
by the same stored amount. -/
theorem C2_identity_unconditional :
    (∀ (s : TransactionManager) (t : Transaction), s.Inv → ((s.accept t).2).Inv) ∧
    (∀ s : TransactionManager, s.Reachable → s.Inv) ∧
    (∀ (b : Balance) (a : Int),
      (b.chargeback a).held_base_units = b.held_base_units - a ∧
      (b.chargeback a).total_base_units = b.total_base_units - a) :=
  ⟨fun _ t h => h.accept t, fun _ h => h.inv, fun _ _ => ⟨rfl, rfl⟩⟩

/-- C2 witness: preservation applied at the fresh manager and a concrete
deposit, plus the chargeback deltas at a concrete balance and amount. -/
theorem C2_identity_unconditional_witness :
    TransactionManager.new.Inv ∧
    ((TransactionManager.new.accept (.Deposit 1 1 100)).2).Inv ∧
    ((Balance.new.chargeback 7).held_base_units = Balance.new.held_base_units - 7 ∧
      (Balance.new.chargeback 7).total_base_units = Balance.new.total_base_units - 7) :=
  ⟨fun _ => BalanceInv.new_balance,
    C2_identity_unconditional.1 _ _ (fun _ => BalanceInv.new_balance),
    C2_identity_unconditional.2.2 Balance.new 7⟩

/-! ## Claim C3 -/

/-- The C3 scenario, amounts in base units (100 and 50 display units at the
source's 4-decimal fixed point scale). -/
def c3_s1 : Except TransactionError Unit × TransactionManager :=
  TransactionManager.new.accept (.Deposit 1 1 1000000)

def c3_s2 : Except TransactionError Unit × TransactionManager :=
  c3_s1.2.accept (.Withdrawal 2 1 500000)

def c3_s3 : Except TransactionError Unit × TransactionManager :=
  c3_s2.2.accept (.Dispute 1 1)

def c3_s4 : Except TransactionError Unit × TransactionManager :=
  c3_s3.2.accept (.Chargeback 1 1)

/-- C3: deposit 100, withdraw 50, dispute the deposit, charge it back — all
four calls succeed; after the dispute client 1 reads
`available = -50, held = 100, total = 50` (display units: the hold has no
sufficient-funds check, so `available` goes negative), and after the
chargeback `available = -50, held = 0, total = -50, locked = true`. -/
theorem C3_dispute_chargeback_scenario :
    c3_s1.1 = .ok () ∧ c3_s2.1 = .ok () ∧ c3_s3.1 = .ok () ∧ c3_s4.1 = .ok () ∧
    (c3_s3.2.balances 1).available_base_units = -500000 ∧
    (c3_s3.2.balances 1).held_base_units = 1000000 ∧
    (c3_s3.2.balances 1).total_base_units = 500000 ∧
    (c3_s4.2.balances 1).available_base_units = -500000 ∧
    (c3_s4.2.balances 1).held_base_units = 0 ∧
    (c3_s4.2.balances 1).total_base_units = -500000 ∧
    (c3_s4.2.balances 1).locked = true := by
  decide

/-! ## Claim C4 -/

/-- The state after one deposit of 100 base units for client 1 under id 1. -/
def c4_s : TransactionManager :=
  (TransactionManager.new.accept (.Deposit 1 1 100)).2

/-- C4, counterexample to the claim as stated: a withdrawal whose amount
(200) exceeds the client's available balance (100) but whose id duplicates
an existing record is rejected with `DuplicateTransaction`, not
`InsufficientFunds` — the duplicate check runs first. -/
theorem C4_duplicate_preempts_insufficient :
    (c4_s.balances 1).available_base_units < 200 ∧
    (c4_s.accept (.Withdrawal 1 1 200)).1 ≠ .error .InsufficientFunds ∧
    (c4_s.accept (.Withdrawal 1 1 200)).1 = .error .DuplicateTransaction := by
  decide

/-- C4 (amended): for every state and every withdrawal with a fresh id and a
non-negative amount exceeding the owning client's available balance, `accept`
returns `InsufficientFunds`, creates no record under that id, and leaves
every client's four balance fields unchanged (the whole state is returned
unmodified). -/
theorem C4_insufficient_funds_untouched (s : TransactionManager)
    (tid : TransactionId) (c : ClientId) (a : Int)
    (hfresh : s.transactions tid = none) (ha : 0 ≤ a)
    (hf : (s.balances c).available_base_units < a) :
    s.accept (.Withdrawal tid c a) = (.error .InsufficientFunds, s) ∧
    (s.accept (.Withdrawal tid c a)).2.transactions tid = none ∧
    ∀ c', (s.accept (.Withdrawal tid c a)).2.balances c' = s.balances c' := by
  have h := TransactionManager.withdrawal_insufficient hfresh (not_lt.mpr ha) hf
  refine ⟨h, ?_, ?_⟩
  · show (s.withdrawal tid c a).2.transactions tid = none
    rw [h]; exact hfresh
  · intro c'
    show (s.withdrawal tid c a).2.balances c' = s.balances c'
    rw [h]

/-- C4 witness: the amended theorem at the fresh manager, withdrawing 5 from
client 1 whose available balance is 0. -/
theorem C4_insufficient_funds_untouched_witness :
    TransactionManager.new.transactions 1 = none ∧ (0 : Int) ≤ 5 ∧
    (TransactionManager.new.balances 1).available_base_units < 5 ∧
    (TransactionManager.new.accept (.Withdrawal 1 1 5) =
      (.error .InsufficientFunds, TransactionManager.new) ∧
    (TransactionManager.new.accept (.Withdrawal 1 1 5)).2.transactions 1 = none ∧
    ∀ c', (TransactionManager.new.accept (.Withdrawal 1 1 5)).2.balances c' =
      TransactionManager.new.balances c') :=
  ⟨rfl, by decide, by decide,
    C4_insufficient_funds_untouched TransactionManager.new 1 1 5 rfl
      (by decide) (by decide)⟩

/-! ## Claim C5 -/

/-- C5: a deposit or withdrawal whose id already exists in the transaction
map is rejected with `DuplicateTransaction` and the whole state — both maps,
hence every client's balance fields — is returned unchanged. -/
theorem C5_duplicate_rejected (s : TransactionManager) (tid : TransactionId)
    (c : ClientId) (a : Int) (ts : TransactionState)
    (h : s.transactions tid = some ts) :
    s.accept (.Deposit tid c a) = (.error .DuplicateTransaction, s) ∧
    s.accept (.Withdrawal tid c a) = (.error .DuplicateTransaction, s) :=
  ⟨TransactionManager.deposit_dup c a h, TransactionManager.withdrawal_dup c a h⟩

/-- C5 witness: the second of two deposits carrying the same id 1 — and a
withdrawal reusing that id — are rejected with `DuplicateTransaction` and
leave the state unchanged. -/
theorem C5_duplicate_rejected_witness :
    c4_s.transactions 1 = some ⟨.Deposit, 1, 1, 100, .Valid⟩ ∧
    (c4_s.accept (.Deposit 1 1 100) = (.error .DuplicateTransaction, c4_s) ∧
    c4_s.accept (.Withdrawal 1 1 100) = (.error .DuplicateTransaction, c4_s)) :=
  ⟨by decide, C5_duplicate_rejected c4_s 1 1 100 ⟨.Deposit, 1, 1, 100, .Valid⟩ (by decide)⟩

/-! ## Claim C6 -/

/-- C6: dispute, resolve and chargeback check, in order: a missing record
(`DisputedTransactionNotFound`); a supplied client differing from the
record's owner (`DisputeClientMismatch` / `ResolveClientMismatch` /
`ChargebackClientMismatch`); for dispute only, a withdrawal-kind record
(`DisputeWithdrawalNotSupported`); and finally the status
(`InvalidStateTransition` carrying the from/to states) unless it is `Valid`
for dispute, `Disputed` for resolve and chargeback.  On every failure the
whole state is returned unchanged. -/
theorem C6_dispute_family_check_order (s : TransactionManager)
    (tid : TransactionId) (c : ClientId) :
    (s.transactions tid = none →
      s.accept (.Dispute tid c) = (.error .DisputedTransactionNotFound, s) ∧
      s.accept (.Resolve tid c) = (.error .DisputedTransactionNotFound, s) ∧
      s.accept (.Chargeback tid c) = (.error .DisputedTransactionNotFound, s)) ∧
    (∀ ts, s.transactions tid = some ts → c ≠ ts.client_id →
      s.accept (.Dispute tid c) = (.error .DisputeClientMismatch, s) ∧
      s.accept (.Resolve tid c) = (.error .ResolveClientMismatch, s) ∧
      s.accept (.Chargeback tid c) = (.error .ChargebackClientMismatch, s)) ∧
    (∀ ts, s.transactions tid = some ts → c = ts.client_id →
      ts.transaction_type = .Withdrawal →
      s.accept (.Dispute tid c) = (.error .DisputeWithdrawalNotSupported, s)) ∧
    (∀ ts, s.transactions tid = some ts → c = ts.client_id →
      ts.transaction_type ≠ .Withdrawal → ts.status ≠ .Valid →
      s.accept (.Dispute tid c) =
        (.error (.InvalidStateTransition ts.status .Disputed), s)) ∧
    (∀ ts, s.transactions tid = some ts → c = ts.client_id → ts.status ≠ .Disputed →
      s.accept (.Resolve tid c) =
        (.error (.InvalidStateTransition ts.status .Resolved), s) ∧
      s.accept (.Chargeback tid c) =
        (.error (.InvalidStateTransition ts.status .Chargeback), s)) := by
  refine ⟨fun h => ⟨?_, ?_, ?_⟩, fun ts h hc => ⟨?_, ?_, ?_⟩,
    fun ts h hc hw => ?_, fun ts h hc hw hv => ?_, fun ts h hc hv => ⟨?_, ?_⟩⟩
  · exact TransactionManager.dispute_not_found c h
  · exact TransactionManager.resolve_not_found c h
  · exact TransactionManager.chargeback_not_found c h
  · exact TransactionManager.dispute_mismatch h hc
  · exact TransactionManager.resolve_mismatch h hc
  · exact TransactionManager.chargeback_mismatch h hc
  · exact TransactionManager.dispute_withdrawal_kind h (not_not_intro hc) hw
  · exact TransactionManager.dispute_invalid h (not_not_intro hc) hw hv
  · exact TransactionManager.resolve_invalid h (not_not_intro hc) hv
  · exact TransactionManager.chargeback_invalid h (not_not_intro hc) hv

/-- C6 witness: one concrete instance of every failure branch — missing
record on the fresh manager; client mismatch, premature resolve and
premature chargeback on the post-deposit state; dispute of a withdrawal
record; and a second dispute of an already-disputed record. -/
theorem C6_dispute_family_check_order_witness :
    TransactionManager.new.accept (.Dispute 1 1) =
      (.error .DisputedTransactionNotFound, TransactionManager.new) ∧
    c4_s.accept (.Resolve 1 2) = (.error .ResolveClientMismatch, c4_s) ∧
    c3_s2.2.accept (.Dispute 2 1) = (.error .DisputeWithdrawalNotSupported, c3_s2.2) ∧
    c3_s3.2.accept (.Dispute 1 1) =
      (.error (.InvalidStateTransition .Disputed .Disputed), c3_s3.2) ∧
    c4_s.accept (.Resolve 1 1) =
      (.error (.InvalidStateTransition .Valid .Resolved), c4_s) ∧
    c4_s.accept (.Chargeback 1 1) =
      (.error (.InvalidStateTransition .Valid .Chargeback), c4_s) :=
  ⟨((C6_dispute_family_check_order TransactionManager.new 1 1).1 rfl).1,
    ((C6_dispute_family_check_order c4_s 1 2).2.1
      ⟨.Deposit, 1, 1, 100, .Valid⟩ (by decide) (by decide)).2.1,
    (C6_dispute_family_check_order c3_s2.2 2 1).2.2.1
      ⟨.Withdrawal, 2, 1, 500000, .Valid⟩ (by decide) (by decide) (by decide),
    (C6_dispute_family_check_order c3_s3.2 1 1).2.2.2.1
      ⟨.Deposit, 1, 1, 1000000, .Disputed⟩
      (by decide) (by decide) (by decide) (by decide),
    ((C6_dispute_family_check_order c4_s 1 1).2.2.2.2
      ⟨.Deposit, 1, 1, 100, .Valid⟩ (by decide) (by decide) (by decide)).1,
    ((C6_dispute_family_check_order c4_s 1 1).2.2.2.2
      ⟨.Deposit, 1, 1, 100, .Valid⟩ (by decide) (by decide) (by decide)).2⟩

/-! ## Claim C7 -/

/-- C7: a successful chargeback of a disputed record with stored amount `a`
sets the record's status to `Chargeback` and changes the owner's balance
exactly by `total -= a; held -= a; locked := true` with `available`
untouched; `a` is the amount stored on the original record (the
`Transaction.Chargeback` variant carries no amount field). -/
theorem C7_chargeback_effect (s : TransactionManager) (tid : TransactionId)
    (c : ClientId) (ts : TransactionState)
    (h : s.transactions tid = some ts) (hc : ts.client_id = c)
    (hv : ts.status = .Disputed) :
    (s.accept (.Chargeback tid c)).1 = .ok () ∧
    (s.accept (.Chargeback tid c)).2.transactions tid =
      some { ts with status := .Chargeback } ∧
    ((s.accept (.Chargeback tid c)).2.balances c).available_base_units =
      (s.balances c).available_base_units ∧
    ((s.accept (.Chargeback tid c)).2.balances c).held_base_units =
      (s.balances c).held_base_units - ts.amount_base_units ∧
    ((s.accept (.Chargeback tid c)).2.balances c).total_base_units =
      (s.balances c).total_base_units - ts.amount_base_units ∧
    ((s.accept (.Chargeback tid c)).2.balances c).locked = true := by
  have he := TransactionManager.chargeback_ok h (not_not_intro hc.symm) (not_not_intro hv)
  have hacc : s.accept (.Chargeback tid c) = s.chargeback tid c := rfl
  rw [hacc, he]
  refine ⟨rfl, ?_, ?_, ?_, ?_, ?_⟩ <;>
    simp [Function.update_same, Balance.chargeback]

/-- C7 witness: the chargeback of the disputed deposit in the C3 scenario. -/
theorem C7_chargeback_effect_witness :
    c3_s3.2.transactions 1 = some ⟨.Deposit, 1, 1, 1000000, .Disputed⟩ ∧
    ((c3_s3.2.accept (.Chargeback 1 1)).1 = .ok () ∧
    (c3_s3.2.accept (.Chargeback 1 1)).2.transactions 1 =
      some ⟨.Deposit, 1, 1, 1000000, .Chargeback⟩ ∧
    ((c3_s3.2.accept (.Chargeback 1 1)).2.balances 1).available_base_units =
      (c3_s3.2.balances 1).available_base_units ∧
    ((c3_s3.2.accept (.Chargeback 1 1)).2.balances 1).held_base_units =
      (c3_s3.2.balances 1).held_base_units - 1000000 ∧
    ((c3_s3.2.accept (.Chargeback 1 1)).2.balances 1).total_base_units =
      (c3_s3.2.balances 1).total_base_units - 1000000 ∧
    ((c3_s3.2.accept (.Chargeback 1 1)).2.balances 1).locked = true) :=
  ⟨by decide,
    C7_chargeback_effect c3_s3.2 1 1 ⟨.Deposit, 1, 1, 1000000, .Disputed⟩
      (by decide) rfl rfl⟩

/-! ## Claim C8 -/

/-- C8: a successful dispute of a deposit record followed by a successful
resolve of the same id restores the owner's `available` and `held` exactly
to their pre-dispute values, and `total` is unchanged by both steps. -/
theorem C8_dispute_resolve_round_trip (s : TransactionManager)
    (tid : TransactionId) (c : ClientId) (ts : TransactionState)
    (h : s.transactions tid = some ts) (hc : ts.client_id = c)
    (hk : ts.transaction_type = .Deposit) (hv : ts.status = .Valid) :
    (s.accept (.Dispute tid c)).1 = .ok () ∧
    ((s.accept (.Dispute tid c)).2.accept (.Resolve tid c)).1 = .ok () ∧
    ((s.accept (.Dispute tid c)).2.balances c).total_base_units =
      (s.balances c).total_base_units ∧
    ((((s.accept (.Dispute tid c)).2.accept (.Resolve tid c)).2.balances c).available_base_units =
      (s.balances c).available_base_units ∧
    (((s.accept (.Dispute tid c)).2.accept (.Resolve tid c)).2.balances c).held_base_units =
      (s.balances c).held_base_units ∧
    (((s.accept (.Dispute tid c)).2.accept (.Resolve tid c)).2.balances c).total_base_units =
      (s.balances c).total_base_units) := by
  have hw : ¬ ts.transaction_type = .Withdrawal := by rw [hk]; intro hx; cases hx
  have h1 := TransactionManager.dispute_ok h (not_not_intro hc.symm)
    hw (not_not_intro hv)
  have hacc1 : s.accept (.Dispute tid c) = s.dispute tid c := rfl
  rw [hacc1, h1]
  set s1 : TransactionManager :=
    { balances := Function.update s.balances c ((s.balances c).hold ts.amount_base_units)
      transactions := Function.update s.transactions tid
        (some { ts with status := .Disputed }) } with hs1
  have h1t : s1.transactions tid = some { ts with status := .Disputed } := by
    rw [hs1]; exact Function.update_same tid _ s.transactions
  have h2 := TransactionManager.resolve_ok h1t
    (not_not_intro hc.symm) (not_not_intro rfl)
  have hacc2 : s1.accept (.Resolve tid c) = s1.resolve tid c := rfl
  rw [hacc2, h2]
  have hb1 : s1.balances c = (s.balances c).hold ts.amount_base_units := by
    rw [hs1]; exact Function.update_same c _ s.balances
  refine ⟨rfl, rfl, ?_, ?_, ?_, ?_⟩ <;>
    simp [hb1, Function.update_same, Balance.hold, Balance.release]

/-- C8 witness: dispute then resolve of the deposit record of 100 base units
for client 1, starting from the post-deposit state. -/
theorem C8_dispute_resolve_round_trip_witness :
    c4_s.transactions 1 = some ⟨.Deposit, 1, 1, 100, .Valid⟩ ∧
    ((c4_s.accept (.Dispute 1 1)).1 = .ok () ∧
    ((c4_s.accept (.Dispute 1 1)).2.accept (.Resolve 1 1)).1 = .ok () ∧
    ((c4_s.accept (.Dispute 1 1)).2.balances 1).total_base_units =
      (c4_s.balances 1).total_base_units ∧
    ((((c4_s.accept (.Dispute 1 1)).2.accept (.Resolve 1 1)).2.balances 1).available_base_units =
      (c4_s.balances 1).available_base_units ∧
    (((c4_s.accept (.Dispute 1 1)).2.accept (.Resolve 1 1)).2.balances 1).held_base_units =
      (c4_s.balances 1).held_base_units ∧
    (((c4_s.accept (.Dispute 1 1)).2.accept (.Resolve 1 1)).2.balances 1).total_base_units =
      (c4_s.balances 1).total_base_units)) :=
  ⟨by decide,
    C8_dispute_resolve_round_trip c4_s 1 1 ⟨.Deposit, 1, 1, 100, .Valid⟩
      (by decide) rfl rfl rfl⟩

/-! ## Claim C9 -/

/-- One `accept` step either leaves a client's `locked` flag as it was, or
the step is a successful chargeback for that very client and the flag is
`true` afterwards. -/
theorem TransactionManager.locked_step (s : TransactionManager) (t : Transaction)
    (c : ClientId) :
    ((s.accept t).2.balances c).locked = (s.balances c).locked ∨
    (∃ tid, t = .Chargeback tid c ∧ (s.accept t).1 = .ok () ∧
      ((s.accept t).2.balances c).locked = true) := by
  cases t with
  | Deposit tid c' a =>
    left
    show ((s.deposit tid c' a).2.balances c).locked = _
    cases hx : s.transactions tid with
    | some ts => rw [TransactionManager.deposit_dup c' a hx]
    | none =>
      by_cases ha : a < 0
      · rw [TransactionManager.deposit_neg c' hx ha]
      · rw [TransactionManager.deposit_ok c' hx ha]
        by_cases hc : c = c'
        · subst hc; simp [Function.update_same, Balance.deposit]
        · simp [Function.update_noteq hc]
  | Withdrawal tid c' a =>
    left
    show ((s.withdrawal tid c' a).2.balances c).locked = _
    cases hx : s.transactions tid with
    | some ts => rw [TransactionManager.withdrawal_dup c' a hx]
    | none =>
      by_cases ha : a < 0
      · rw [TransactionManager.withdrawal_neg c' hx ha]
      · by_cases hf : (s.balances c').available_base_units < a
        · rw [TransactionManager.withdrawal_insufficient hx ha hf]
        · rw [TransactionManager.withdrawal_ok hx ha hf]
          by_cases hc : c = c'
          · subst hc; simp [Function.update_same]
          · simp [Function.update_noteq hc]
  | Dispute tid c' =>
    left
    show ((s.dispute tid c').2.balances c).locked = _
    cases hx : s.transactions tid with
    | none => rw [TransactionManager.dispute_not_found c' hx]
    | some ts =>
      by_cases hc' : c' ≠ ts.client_id
      · rw [TransactionManager.dispute_mismatch hx hc']
      · by_cases hw : ts.transaction_type = .Withdrawal
        · rw [TransactionManager.dispute_withdrawal_kind hx hc' hw]
        · by_cases hv : ts.status ≠ .Valid
          · rw [TransactionManager.dispute_invalid hx hc' hw hv]
          · rw [TransactionManager.dispute_ok hx hc' hw hv]
            by_cases hc : c = c'
            · subst hc; simp [Function.update_same, Balance.hold]
            · simp [Function.update_noteq hc]
  | Resolve tid c' =>
    left
    show ((s.resolve tid c').2.balances c).locked = _
    cases hx : s.transactions tid with
    | none => rw [TransactionManager.resolve_not_found c' hx]
    | some ts =>
      by_cases hc' : c' ≠ ts.client_id
      · rw [TransactionManager.resolve_mismatch hx hc']
      · by_cases hv : ts.status ≠ .Disputed
        · rw [TransactionManager.resolve_invalid hx hc' hv]
        · rw [TransactionManager.resolve_ok hx hc' hv]
          by_cases hc : c = c'
          · subst hc; simp [Function.update_same, Balance.release]
          · simp [Function.update_noteq hc]
  | Chargeback tid c' =>
    show ((s.chargeback tid c').2.balances c).locked = _ ∨
      (∃ tid', Transaction.Chargeback tid c' = .Chargeback tid' c ∧
        (s.chargeback tid c').1 = .ok () ∧
        ((s.chargeback tid c').2.balances c).locked = true)
    cases hx : s.transactions tid with
    | none => left; rw [TransactionManager.chargeback_not_found c' hx]
    | some ts =>
      by_cases hc' : c' ≠ ts.client_id
      · left; rw [TransactionManager.chargeback_mismatch hx hc']
      · by_cases hv : ts.status ≠ .Disputed
        · left; rw [TransactionManager.chargeback_invalid hx hc' hv]
        · rw [TransactionManager.chargeback_ok hx hc' hv]
          by_cases hc : c = c'
          · subst hc
            right
            exact ⟨tid, rfl, rfl, by simp [Function.update_same, Balance.chargeback]⟩
          · left; simp [Function.update_noteq hc]

/-- C9: a client's `locked` flag (i) once `true` is never cleared by any
later `accept`; (ii) flips from `false` to `true` only through a successful
chargeback naming that client; and (iii) does not block further activity —
a deposit or a sufficiently funded withdrawal for a locked client still
succeeds and mutates the balance as usual. -/
theorem C9_locked_lifecycle :
    (∀ (s : TransactionManager) (t : Transaction) (c : ClientId),
      (s.balances c).locked = true → ((s.accept t).2.balances c).locked = true) ∧
    (∀ (s : TransactionManager) (t : Transaction) (c : ClientId),
      (s.balances c).locked = false → ((s.accept t).2.balances c).locked = true →
      ∃ tid, t = .Chargeback tid c ∧ (s.accept t).1 = .ok ()) ∧
    (∀ (s : TransactionManager) (tid : TransactionId) (c : ClientId) (a : Int),
      s.transactions tid = none → 0 ≤ a → (s.balances c).locked = true →
      ((s.accept (.Deposit tid c a)).1 = .ok () ∧
        ((s.accept (.Deposit tid c a)).2.balances c).available_base_units =
          (s.balances c).available_base_units + a ∧
        ((s.accept (.Deposit tid c a)).2.balances c).total_base_units =
          (s.balances c).total_base_units + a) ∧
      (a ≤ (s.balances c).available_base_units →
        (s.accept (.Withdrawal tid c a)).1 = .ok () ∧
        ((s.accept (.Withdrawal tid c a)).2.balances c).available_base_units =
          (s.balances c).available_base_units - a ∧
        ((s.accept (.Withdrawal tid c a)).2.balances c).total_base_units =
          (s.balances c).total_base_units - a)) := by
  refine ⟨?_, ?_, ?_⟩
  · intro s t c hl
    rcases TransactionManager.locked_step s t c with h | ⟨tid, _, _, h⟩
    · rw [h]; exact hl
    · exact h
  · intro s t c hl hl'
    rcases TransactionManager.locked_step s t c with h | ⟨tid, ht, hok, _⟩
    · rw [h, hl] at hl'; cases hl'
    · exact ⟨tid, ht, hok⟩
  · intro s tid c a hx ha _
    constructor
    · rw [show s.accept (.Deposit tid c a) = s.deposit tid c a from rfl,
        TransactionManager.deposit_ok c hx (not_lt.mpr ha)]
      refine ⟨rfl, ?_, ?_⟩ <;> simp [Function.update_same, Balance.deposit]
    · intro hle
      rw [show s.accept (.Withdrawal tid c a) = s.withdrawal tid c a from rfl,
        TransactionManager.withdrawal_ok hx (not_lt.mpr ha) (not_lt.mpr hle)]
      refine ⟨rfl, ?_, ?_⟩ <;> simp [Function.update_same]

/-- The post-chargeback variant of the simple deposit scenario: client 1 is
locked with all three sub-balances at zero. -/
def c9_s : TransactionManager :=
  ((c4_s.accept (.Dispute 1 1)).2.accept (.Chargeback 1 1)).2

/-- C9 witness: on a concrete locked client the flag survives a further
step; the locking step of the C3 scenario is a successful chargeback; and a
fresh deposit of 30 and a withdrawal of 0 against the locked client both
succeed and mutate the balance as usual. -/
theorem C9_locked_lifecycle_witness :
    (c9_s.balances 1).locked = true ∧
    ((c9_s.accept (.Resolve 1 1)).2.balances 1).locked = true ∧
    (c3_s3.2.balances 1).locked = false ∧
    ((c3_s3.2.accept (.Chargeback 1 1)).2.balances 1).locked = true ∧
    (∃ tid, (Transaction.Chargeback 1 1) = .Chargeback tid 1 ∧
      (c3_s3.2.accept (.Chargeback 1 1)).1 = .ok ()) ∧
    ((c9_s.accept (.Deposit 2 1 30)).1 = .ok () ∧
      ((c9_s.accept (.Deposit 2 1 30)).2.balances 1).available_base_units =
        (c9_s.balances 1).available_base_units + 30 ∧
      ((c9_s.accept (.Deposit 2 1 30)).2.balances 1).total_base_units =
        (c9_s.balances 1).total_base_units + 30) ∧
    ((c9_s.accept (.Withdrawal 2 1 0)).1 = .ok () ∧
      ((c9_s.accept (.Withdrawal 2 1 0)).2.balances 1).available_base_units =
        (c9_s.balances 1).available_base_units - 0 ∧
      ((c9_s.accept (.Withdrawal 2 1 0)).2.balances 1).total_base_units =
        (c9_s.balances 1).total_base_units - 0) :=
  ⟨by decide,
    C9_locked_lifecycle.1 c9_s (.Resolve 1 1) 1 (by decide),
    by decide,
    by decide,
    C9_locked_lifecycle.2.1 c3_s3.2 (.Chargeback 1 1) 1 (by decide) (by decide),
    (C9_locked_lifecycle.2.2 c9_s 2 1 30 (by decide) (by decide) (by decide)).1,
    (C9_locked_lifecycle.2.2 c9_s 2 1 0 (by decide) (by decide) (by decide)).2
      (by decide)⟩

/-! ## Claim C10 -/

/-- C10: the amount check rejects only strictly negative amounts; a deposit
of exactly 0 succeeds, changes no balance field value of any client, and
inserts a `Valid` deposit record under the fresh id that a subsequent
dispute by the same client succeeds against. -/
theorem C10_zero_amount_deposit (s : TransactionManager) (tid : TransactionId)
    (c : ClientId) (h : s.transactions tid = none) :
    (∀ a : Int, TransactionState.new .Deposit tid c a = .error .AmountIsNegative ↔ a < 0) ∧
    (s.accept (.Deposit tid c 0)).1 = .ok () ∧
    (∀ c', (s.accept (.Deposit tid c 0)).2.balances c' = s.balances c') ∧
    (s.accept (.Deposit tid c 0)).2.transactions tid =
      some ⟨.Deposit, tid, c, 0, .Valid⟩ ∧
    ((s.accept (.Deposit tid c 0)).2.accept (.Dispute tid c)).1 = .ok () := by
  have hz : ¬ (0 : Int) < 0 := by omega
  have hd := TransactionManager.deposit_ok c h hz
  have hacc : s.accept (.Deposit tid c 0) = s.deposit tid c 0 := rfl
  have hzero : (s.balances c).deposit 0 = s.balances c := by
    simp [Balance.deposit]
  refine ⟨?_, ?_, ?_, ?_, ?_⟩
  · intro a
    constructor
    · intro hn
      by_contra ha
      simp [TransactionState.new, if_neg ha] at hn
    · intro ha
      simp [TransactionState.new, if_pos ha]
  · rw [hacc, hd]
  · intro c'
    rw [hacc, hd]
    show Function.update s.balances c ((s.balances c).deposit 0) c' = s.balances c'
    rw [hzero, Function.update_eq_self]
  · rw [hacc, hd]
    exact Function.update_same tid _ s.transactions
  · rw [hacc, hd]
    have ht : (TransactionManager.mk
        (Function.update s.balances c ((s.balances c).deposit 0))
        (Function.update s.transactions tid (some ⟨.Deposit, tid, c, 0, .Valid⟩))).transactions
        tid = some ⟨.Deposit, tid, c, 0, .Valid⟩ :=
      Function.update_same tid _ s.transactions
    have h2 := TransactionManager.dispute_ok ht (not_not_intro rfl)
      (by intro hx; cases hx) (not_not_intro rfl)
    rw [show ∀ m : TransactionManager, m.accept (.Dispute tid c) = m.dispute tid c
      from fun _ => rfl, h2]

/-- C10 witness: a zero-amount deposit under fresh id 1 on the fresh
manager, followed by its successful dispute. -/
theorem C10_zero_amount_deposit_witness :
    TransactionManager.new.transactions 1 = none ∧
    ((∀ a : Int, TransactionState.new .Deposit 1 1 a = .error .AmountIsNegative ↔ a < 0) ∧
    (TransactionManager.new.accept (.Deposit 1 1 0)).1 = .ok () ∧
    (∀ c', (TransactionManager.new.accept (.Deposit 1 1 0)).2.balances c' =
      TransactionManager.new.balances c') ∧
    (TransactionManager.new.accept (.Deposit 1 1 0)).2.transactions 1 =
      some ⟨.Deposit, 1, 1, 0, .Valid⟩ ∧
    ((TransactionManager.new.accept (.Deposit 1 1 0)).2.accept (.Dispute 1 1)).1 = .ok ()) :=
  ⟨rfl, C10_zero_amount_deposit TransactionManager.new 1 1 rfl⟩
